import Mathlib

/-!
Verification of the multi-provider generation gateway of Ex3-NovelWriter
(`src/backend/models/`): the generation contract (`base.py`), the six
provider adapters, and the model registry (`model_manager.py`).

Python values that flow through the open `Dict[str, Any]` dictionaries are
embedded as `PyVal`; Python dictionaries as association lists with
replace-or-append insertion (`dinsert`), first-match lookup (`dlookup`) and
single-key deletion (`derase`), mirroring `dict` assignment, subscript lookup
and `del`.  Numbers are embedded as `Int`/`Rat`; Python truthiness (`x or y`,
`if x:`) is made explicit (`pyOrInt`, `pyOrRat`, `pyTruthyStr`,
`pyTruthyList`).  Network effects are abstracted as outcome oracles: a
health probe yields either a raised exception (`none`) or an HTTP status,
and a backend call yields an `Except`.
-/

/-- Embedded Python value for the open `Dict[str, Any]` mappings
(`custom_params`, payload options, `usage`, `metadata`). -/
inductive PyVal where
  | int (n : Int)
  | float (q : Rat)
  | str (s : String)
  | bool (b : Bool)
  | strlist (l : List String)
  | pnone
deriving DecidableEq, Repr

/-- `ModelConfig` from `src/backend/models/base.py` (pydantic model with
defaults `max_tokens=4096`, `temperature=0.9`, `top_p=0.9`, `top_k=40`,
`custom_params={}`). -/
structure ModelConfig where
  name : String
  provider : String
  model_id : String
  api_key : Option String := none
  base_url : Option String := none
  max_tokens : Int := 4096
  temperature : Rat := 9/10
  top_p : Rat := 9/10
  top_k : Int := 40
  custom_params : List (String × PyVal) := []
deriving DecidableEq, Repr

/-- `GenerationRequest` from `base.py`: every tuning field is `Optional`
with default `None`. -/
structure GenerationRequest where
  prompt : String
  max_tokens : Option Int := none
  temperature : Option Rat := none
  top_p : Option Rat := none
  top_k : Option Int := none
  stop_sequences : Option (List String) := none
  system_prompt : Option String := none
deriving DecidableEq, Repr

/-- `GenerationResponse` from `base.py`. -/
structure GenerationResponse where
  text : String
  model : String
  provider : String
  usage : List (String × PyVal) := []
  metadata : List (String × PyVal) := []
deriving DecidableEq, Repr

/-- Python dictionary lookup `d[k]` / `d.get(k)`: first entry whose key
matches. -/
def dlookup {α : Type} : List (String × α) → String → Option α
  | [], _ => none
  | (k', v) :: rest, k => if k' = k then some v else dlookup rest k

/-- Python dictionary assignment `d[k] = v`: replace the value at an existing
key in place, otherwise append the new entry at the end (insertion order). -/
def dinsert {α : Type} : List (String × α) → String → α → List (String × α)
  | [], k, v => [(k, v)]
  | (k', v') :: rest, k, v =>
      if k' = k then (k, v) :: rest else (k', v') :: dinsert rest k v

/-- Python `del d[k]` on a dictionary: drop the (unique) entry at key `k`. -/
def derase {α : Type} : List (String × α) → String → List (String × α)
  | [], _ => []
  | (k', v') :: rest, k => if k' = k then rest else (k', v') :: derase rest k

/-- Python `x or default` where `x` is an `Optional[int]`: `None` and the
falsy value `0` both select the default. -/
def pyOrInt (x : Option Int) (d : Int) : Int :=
  match x with
  | none => d
  | some v => if v = 0 then d else v

/-- Python `x or default` where `x` is an `Optional[float]`: `None` and the
falsy value `0.0` both select the default. -/
def pyOrRat (x : Option Rat) (d : Rat) : Rat :=
  match x with
  | none => d
  | some v => if v = 0 then d else v

/-- Python `if s:` on an `Optional[str]`: `None` and `""` are falsy. -/
def pyTruthyStr (x : Option String) : Bool :=
  match x with
  | none => false
  | some s => !s.isEmpty

/-- Python `if l:` on an `Optional[List[str]]`: `None` and `[]` are falsy. -/
def pyTruthyList (x : Option (List String)) : Bool :=
  match x with
  | none => false
  | some l => !l.isEmpty

/-- `BaseModelProvider.merge_config` (`base.py` lines 57-65): a dict literal
with the four standard fields computed by Python `or`, then
`**self.config.custom_params` spread last, so each custom pair is inserted
after (and over) the standard fields. -/
def mergeConfig (cfg : ModelConfig) (req : GenerationRequest) :
    List (String × PyVal) :=
  cfg.custom_params.foldl (fun d e => dinsert d e.1 e.2)
    [("max_tokens", .int (pyOrInt req.max_tokens cfg.max_tokens)),
     ("temperature", .float (pyOrRat req.temperature cfg.temperature)),
     ("top_p", .float (pyOrRat req.top_p cfg.top_p)),
     ("top_k", .int (pyOrInt req.top_k cfg.top_k))]

/-- The closed provider-kind enumeration of `ModelManager.provider_classes`
(`model_manager.py` lines 15-22). -/
inductive ProviderKind where
  | openai
  | anthropic
  | ollama
  | llamacpp
  | textgen
  | huggingface
deriving DecidableEq, Repr

/-- A live adapter: its kind together with the stored `ModelConfig`
(`BaseModelProvider.__init__` keeps the whole config). -/
structure Adapter where
  kind : ProviderKind
  config : ModelConfig
deriving DecidableEq, Repr

/-- `self.provider_classes.get(config.provider)`: the closed dispatch mapping
from kind tag to adapter constructor. -/
def providerClasses (s : String) : Option ProviderKind :=
  if s = "openai" then some .openai
  else if s = "anthropic" then some .anthropic
  else if s = "ollama" then some .ollama
  else if s = "llamacpp" then some .llamacpp
  else if s = "textgen" then some .textgen
  else if s = "huggingface" then some .huggingface
  else none

/-- The registry state `self.providers`: name -> live adapter, in insertion
order, as a Python dict. -/
abbrev Registry : Type := List (String × Adapter)

/-- `ModelManager.add_model`: look the kind up in `provider_classes`; an
unknown kind raises `ValueError` inside the `try`, which is caught and
reported as `False` with the registry untouched; a known kind constructs the
adapter, stores it under `config.name` and returns `True`. -/
def addModel (r : Registry) (cfg : ModelConfig) : Bool × Registry :=
  match providerClasses cfg.provider with
  | none => (false, r)
  | some k => (true, dinsert r cfg.name ⟨k, cfg⟩)

/-- `ModelManager.remove_model`: delete and report `True` when the name is
present, otherwise report `False`. -/
def removeModel (r : Registry) (name : String) : Bool × Registry :=
  if (dlookup r name).isSome then (true, derase r name) else (false, r)

/-- `ModelManager.get_model`: `self.providers.get(name)`. -/
def getModel (r : Registry) (name : String) : Option Adapter :=
  dlookup r name

/-- The capability dictionary built by each adapter's `get_model_info`.
`mtype` is the `"type"` key (`"chat"` or `"completion"`); `local_flag` and
`cloud` are `some` exactly when the adapter's dictionary carries a
`"local"` / `"cloud"` key. -/
structure ModelInfo where
  provider : String
  model : String
  mtype : String
  supports_system_prompt : Bool
  supports_streaming : Bool
  local_flag : Option Bool := none
  cloud : Option Bool := none
deriving DecidableEq, Repr

/-- `get_model_info` of each of the six providers, dispatched on the
adapter's kind; every variant reports `provider: self.provider` and
`model: self.model_id`.  `openai_provider.py`/`anthropic_provider.py` report
`type: "chat"` and `supports_streaming: True`; `ollama_provider.py`,
`llamacpp_provider.py` and `textgen_provider.py` report
`type: "completion"`, `supports_streaming: True`, `local: True`;
`huggingface_provider.py` reports `type: "completion"`,
`supports_streaming: False`, `cloud: True`. -/
def getModelInfo (a : Adapter) : ModelInfo :=
  match a.kind with
  | .openai =>
      { provider := a.config.provider, model := a.config.model_id,
        mtype := "chat", supports_system_prompt := true,
        supports_streaming := true }
  | .anthropic =>
      { provider := a.config.provider, model := a.config.model_id,
        mtype := "chat", supports_system_prompt := true,
        supports_streaming := true }
  | .ollama =>
      { provider := a.config.provider, model := a.config.model_id,
        mtype := "completion", supports_system_prompt := true,
        supports_streaming := true, local_flag := some true }
  | .llamacpp =>
      { provider := a.config.provider, model := a.config.model_id,
        mtype := "completion", supports_system_prompt := true,
        supports_streaming := true, local_flag := some true }
  | .textgen =>
      { provider := a.config.provider, model := a.config.model_id,
        mtype := "completion", supports_system_prompt := true,
        supports_streaming := true, local_flag := some true }
  | .huggingface =>
      { provider := a.config.provider, model := a.config.model_id,
        mtype := "completion", supports_system_prompt := true,
        supports_streaming := false, cloud := some true }

/-- `ModelManager.list_models`: one `get_model_info` dictionary per
registered entry, tagged with its registry name (`info["name"] = name`). -/
def listModels (r : Registry) : List (String × ModelInfo) :=
  r.map (fun e => (e.1, getModelInfo e.2))

/-- Outcome of one adapter's `health_check` awaited by the registry:
`Except.error msg` when the coroutine raises, `Except.ok b` when it returns
the boolean `b`.  (Each provider's own `health_check` body is modelled
separately below; at the registry layer only the awaited outcome matters.) -/
def HealthOutcome : Type := Except String Bool

/-- `ModelManager.health_check_all` (`model_manager.py` lines 74-82): loop
over `self.providers` in order; each await is wrapped in `try/except`, a
raised exception is downgraded to `False` for that entry only. -/
def healthCheckAll (r : Registry) (env : String → HealthOutcome) :
    List (String × Bool) :=
  r.map (fun e =>
    (e.1, match env e.1 with
          | .ok b => b
          | .error _ => false))

/-- Timing model of the same loop: `dur name` is how long the adapter's
awaited `health_check` occupies before it resolves.  The loop body awaits
each probe to completion before issuing the next, so the clock advances by
`dur` entry after entry; the returned value is the time at which
`health_check_all` itself returns, starting from clock `t`. -/
def healthCheckAllFinish : Registry → (String → Nat) → Nat → Nat
  | [], _, t => t
  | e :: rest, dur, t => healthCheckAllFinish rest dur (t + dur e.1)

/-- `ModelManager.generate` (`model_manager.py` lines 58-64): look the name
up; raise `ValueError(f"Model not found: {model_name}")` when absent,
otherwise delegate to the adapter's `generate`.  The backend interaction of
the adapter is abstracted as the oracle `backend`; the method never mutates
`self.providers`, which the returned registry makes explicit. -/
def managerGenerate (r : Registry) (name : String) (req : GenerationRequest)
    (backend : Adapter → GenerationRequest → Except String GenerationResponse) :
    Except String GenerationResponse × Registry :=
  match getModel r name with
  | none => (Except.error ("Model not found: " ++ name), r)
  | some a => (backend a req, r)

/-- `OllamaProvider.health_check`: `GET {base_url}/api/tags`; a raised
transport error (`none`) is caught and yields `false`, otherwise the result
is `response.status == 200`. -/
def ollamaHealthCheck (resp : Option Nat) : Bool :=
  match resp with
  | none => false
  | some status => decide (status = 200)

/-- `LlamaCppProvider.health_check`: `GET {base_url}/health`; raised errors
yield `false`, otherwise `response.status == 200`. -/
def llamacppHealthCheck (resp : Option Nat) : Bool :=
  match resp with
  | none => false
  | some status => decide (status = 200)

/-- `TextGenerationWebUIProvider.health_check`: `GET {base_url}/api/v1/model`;
raised errors yield `false`, otherwise `response.status == 200`. -/
def textgenHealthCheck (resp : Option Nat) : Bool :=
  match resp with
  | none => false
  | some status => decide (status = 200)

/-- `HuggingFaceProvider.health_check`: `POST` to the inference endpoint with
a 30s timeout; raised errors yield `false`, otherwise
`response.status in [200, 503]` (503 is "model loading"). -/
def hfHealthCheck (resp : Option Nat) : Bool :=
  match resp with
  | none => false
  | some status => decide (status = 200) || decide (status = 503)

/-- `OpenAIProvider.health_check`: `await self.client.models.list()`; the
probe either succeeds (`some ()` -> `True`) or raises (`none` -> `False`). -/
def openaiHealthCheck (resp : Option Unit) : Bool :=
  match resp with
  | none => false
  | some _ => true

/-- `AnthropicProvider.health_check`: a minimal `messages.create` call; the
probe either succeeds (`some ()` -> `True`) or raises (`none` -> `False`). -/
def anthropicHealthCheck (resp : Option Unit) : Bool :=
  match resp with
  | none => false
  | some _ => true

/-- The JSON payload `OllamaProvider.generate` posts to `/api/generate`:
top-level keys `model`, `prompt`, `stream` and the nested `options`
dictionary. -/
structure OllamaPayload where
  model : String
  prompt : String
  stream : Bool
  options : List (String × PyVal)
deriving DecidableEq, Repr

/-- Subscript read `params[k]` on the merged dictionary (always present for
the four standard keys, since `merge_config` puts them in the base literal). -/
def dget (d : List (String × PyVal)) (k : String) : PyVal :=
  (dlookup d k).getD .pnone

/-- The prompt string `OllamaProvider.generate` builds: the system text is
prepended with the `"System: ...\n\nUser: ..."` convention when
`request.system_prompt` is truthy. -/
def ollamaFullPrompt (req : GenerationRequest) : String :=
  if pyTruthyStr req.system_prompt then
    "System: " ++ req.system_prompt.getD "" ++ "\n\nUser: " ++ req.prompt
  else req.prompt

/-- `OllamaProvider.generate`'s payload construction (`ollama_provider.py`
lines 22-35): `options` carries exactly `temperature`, `top_p`, `top_k` and
`num_predict` read from the merged parameters, plus `stop` when
`request.stop_sequences` is truthy.  No other merged key is copied in. -/
def ollamaPayload (cfg : ModelConfig) (req : GenerationRequest) :
    OllamaPayload :=
  let params := mergeConfig cfg req
  { model := cfg.model_id,
    prompt := ollamaFullPrompt req,
    stream := false,
    options :=
      [("temperature", dget params "temperature"),
       ("top_p", dget params "top_p"),
       ("top_k", dget params "top_k"),
       ("num_predict", dget params "max_tokens")] ++
      (if pyTruthyList req.stop_sequences then
        [("stop", .strlist (req.stop_sequences.getD []))]
      else []) }

/-- Whether the Ollama payload mentions key `k` anywhere: as one of its
top-level keys or as a key of its `options` dictionary. -/
def ollamaPayloadMentions (p : OllamaPayload) (k : String) : Bool :=
  decide (k = "model") || decide (k = "prompt") || decide (k = "stream") ||
    decide (k = "options") || p.options.any (fun e => decide (e.1 = k))

/-! ### Concrete fixtures used by witnesses and counterexamples -/

/-- A registered Ollama config (the `llama2-local` default of
`load_default_models`). -/
def cfgOllama : ModelConfig :=
  { name := "llama2-local", provider := "ollama", model_id := "llama2",
    base_url := some "http://localhost:11434" }

/-- A minimal generation request. -/
def reqHello : GenerationRequest := { prompt := "hello" }

/-- An Ollama config whose `custom_params` carries a backend-specific key
outside the four standard fields. -/
def cfgSeed : ModelConfig :=
  { name := "m-seed", provider := "ollama", model_id := "llama2",
    custom_params := [("seed", .int 42)] }

/-- A request that explicitly asks for temperature `0.0`. -/
def reqZeroTemp : GenerationRequest :=
  { prompt := "hello", temperature := some 0 }

/-- A request that explicitly asks for temperature `0.5`. -/
def reqHalfTemp : GenerationRequest :=
  { prompt := "hello", temperature := some (1/2) }

/-- A config whose `custom_params` binds the standard key `max_tokens`. -/
def cfgCustomMax : ModelConfig :=
  { name := "m-custom", provider := "ollama", model_id := "llama2",
    custom_params := [("max_tokens", .int 99)] }

/-- A request that explicitly asks for `max_tokens = 5`. -/
def reqMax5 : GenerationRequest := { prompt := "hello", max_tokens := some 5 }

/-- A registered HuggingFace config. -/
def cfgHF : ModelConfig :=
  { name := "mistral-7b-hf", provider := "huggingface",
    model_id := "mistralai/Mistral-7B-Instruct-v0.1",
    api_key := some "your-huggingface-token" }

/-- A config whose kind tag is outside the closed enumeration. -/
def cfgUnknown : ModelConfig :=
  { name := "mystery", provider := "grok", model_id := "grok-1" }

/-- A live Ollama adapter. -/
def adO : Adapter := { kind := ProviderKind.ollama, config := cfgOllama }

/-- A live HuggingFace adapter. -/
def adHF : Adapter := { kind := ProviderKind.huggingface, config := cfgHF }

/-- A two-entry registry. -/
def rPair : Registry := [("a", adO), ("b", adO)]

/-- A three-entry registry. -/
def rTriple : Registry := [("a", adO), ("b", adO), ("c", adO)]

/-- Probe durations: adapter `a` takes 2 time units, the rest take 3. -/
def durPair : String → Nat := fun n => if n = "a" then 2 else 3

/-- Probe outcomes: adapter `b` raises, every other adapter reports healthy. -/
def envMidFail : String → HealthOutcome := fun n =>
  if n = "b" then Except.error "connection refused" else Except.ok true

/-- A backend oracle that is never consulted. -/
def bkUnused : Adapter → GenerationRequest → Except String GenerationResponse :=
  fun _ _ => Except.error "unused"

/-! ### Dictionary lemmas -/

theorem dlookup_dinsert_self {α : Type} (d : List (String × α)) (k : String)
    (v : α) : dlookup (dinsert d k v) k = some v := by
  induction d with
  | nil => simp [dinsert, dlookup]
  | cons e rest ih =>
      obtain ⟨k1, v1⟩ := e
      by_cases h : k1 = k
      · simp [dinsert, h, dlookup]
      · simp [dinsert, h, dlookup, ih]

theorem dlookup_dinsert_ne {α : Type} (d : List (String × α)) (k k1 : String)
    (v : α) (h : k1 ≠ k) : dlookup (dinsert d k v) k1 = dlookup d k1 := by
  have hk : k ≠ k1 := Ne.symm h
  induction d with
  | nil => simp [dinsert, dlookup, hk]
  | cons e rest ih =>
      obtain ⟨k2, v2⟩ := e
      by_cases h2 : k2 = k
      · subst h2
        simp [dinsert, dlookup, hk]
      · by_cases h3 : k2 = k1
        · simp [dinsert, h2, dlookup, h3, h]
        · simp [dinsert, h2, dlookup, h3, ih]

theorem dlookup_eq_none_of_not_mem {α : Type} (d : List (String × α))
    (k : String) (h : k ∉ d.map Prod.fst) : dlookup d k = none := by
  induction d with
  | nil => simp [dlookup]
  | cons e rest ih =>
      obtain ⟨k1, v1⟩ := e
      simp only [List.map_cons, List.mem_cons] at h
      push_neg at h
      simp [dlookup, Ne.symm h.1, ih h.2]

theorem dlookup_foldl_dinsert_of_not_mem {α : Type} (l : List (String × α))
    (d : List (String × α)) (k : String) (h : ∀ p ∈ l, p.1 ≠ k) :
    dlookup (l.foldl (fun acc e => dinsert acc e.1 e.2) d) k = dlookup d k := by
  induction l generalizing d with
  | nil => simp
  | cons e rest ih =>
      obtain ⟨k1, v1⟩ := e
      have hk1 : k1 ≠ k := h (k1, v1) (List.mem_cons_self _ _)
      have hrest : ∀ p ∈ rest, p.1 ≠ k :=
        fun p hp => h p (List.mem_cons_of_mem _ hp)
      simp only [List.foldl_cons]
      rw [ih (dinsert d k1 v1) hrest, dlookup_dinsert_ne d k1 k v1 (Ne.symm hk1)]

theorem dlookup_foldl_dinsert_of_mem {α : Type} (l : List (String × α))
    (d : List (String × α)) (k : String) (v : α)
    (hnd : (l.map Prod.fst).Nodup) (hm : (k, v) ∈ l) :
    dlookup (l.foldl (fun acc e => dinsert acc e.1 e.2) d) k = some v := by
  induction l generalizing d with
  | nil => simp at hm
  | cons e rest ih =>
      obtain ⟨k1, v1⟩ := e
      simp only [List.map_cons, List.nodup_cons] at hnd
      rcases List.mem_cons.mp hm with heq | hmem
      · injection heq with hk hv
        subst hk
        subst hv
        have hrest : ∀ p ∈ rest, p.1 ≠ k :=
          fun p hp hpk => hnd.1 (hpk ▸ List.mem_map_of_mem Prod.fst hp)
        simp only [List.foldl_cons]
        rw [dlookup_foldl_dinsert_of_not_mem rest _ k hrest,
          dlookup_dinsert_self]
      · simp only [List.foldl_cons]
        exact ih (dinsert d k1 v1) hnd.2 hmem

theorem dlookup_derase_self {α : Type} (d : List (String × α)) (k : String)
    (hnd : (d.map Prod.fst).Nodup) : dlookup (derase d k) k = none := by
  induction d with
  | nil => simp [derase, dlookup]
  | cons e rest ih =>
      obtain ⟨k1, v1⟩ := e
      simp only [List.map_cons, List.nodup_cons] at hnd
      by_cases h : k1 = k
      · subst h
        have hde : derase ((k1, v1) :: rest) k1 = rest := by simp [derase]
        rw [hde]
        exact dlookup_eq_none_of_not_mem rest k1 hnd.1
      · simp [derase, h, dlookup, ih hnd.2]

/-! ### C3: fan-out isolation of health failures -/

/-- Claim C3 (confirmed): for every registry holding adapters in which the
adapter at position `k` always fails its health check (raises or returns
`False`) and every other adapter reports healthy, `health_check_all` returns
a mapping with an entry for every registered name, `true` for every healthy
adapter and `false` exactly at position `k`, for any size and any `k`. -/
theorem healthCheckAll_isolates_failures (r : Registry)
    (env : String → HealthOutcome) (k : Nat)
    (hhealthy : ∀ (i : Nat) (name : String) (a : Adapter), i ≠ k →
      r[i]? = some (name, a) → env name = Except.ok true)
    (hfail : ∀ (name : String) (a : Adapter), r[k]? = some (name, a) →
      env name = Except.ok false ∨ ∃ msg, env name = Except.error msg) :
    (healthCheckAll r env).map Prod.fst = r.map Prod.fst ∧
    ∀ (i : Nat) (name : String) (a : Adapter), r[i]? = some (name, a) →
      (healthCheckAll r env)[i]? = some (name, decide (i ≠ k)) := by
  constructor
  · simp [healthCheckAll, List.map_map]
  · intro i name a hget
    rw [healthCheckAll, List.getElem?_map, hget]
    by_cases hik : i = k
    · subst hik
      rcases hfail name a hget with hf | ⟨msg, hf⟩ <;> simp [hf]
    · simp [hhealthy i name a hik hget, hik]

/-- Witness for C3: three adapters, the middle one raising, yields
`a -> true`, `b -> false`, `c -> true`. -/
theorem healthCheckAll_isolates_failures_witness :
    (healthCheckAll rTriple envMidFail).map Prod.fst = rTriple.map Prod.fst ∧
    (healthCheckAll rTriple envMidFail)[0]? = some ("a", true) ∧
    (healthCheckAll rTriple envMidFail)[1]? = some ("b", false) ∧
    (healthCheckAll rTriple envMidFail)[2]? = some ("c", true) := by
  have hhealthy : ∀ (i : Nat) (name : String) (a : Adapter), i ≠ 1 →
      rTriple[i]? = some (name, a) → envMidFail name = Except.ok true := by
    intro i name a hne hget
    match i, hget with
    | 0, hget =>
        injection hget with hget
        injection hget with h1 h2
        subst h1
        simp [envMidFail]
    | 2, hget =>
        injection hget with hget
        injection hget with h1 h2
        subst h1
        simp [envMidFail]
    | 1, hget => exact absurd rfl hne
  have hfail : ∀ (name : String) (a : Adapter),
      rTriple[1]? = some (name, a) →
      envMidFail name = Except.ok false ∨
        ∃ msg, envMidFail name = Except.error msg := by
    intro name a hget
    injection hget with hget
    injection hget with h1 h2
    subst h1
    exact Or.inr ⟨"connection refused", rfl⟩
  have h := healthCheckAll_isolates_failures rTriple envMidFail 1 hhealthy hfail
  exact ⟨h.1, h.2 0 "a" adO rfl, h.2 1 "b" adO rfl, h.2 2 "c" adO rfl⟩

/-! ### C4: completion latency of health_check_all -/

/-- Claim C4 (corrected): `health_check_all` awaits each registered adapter's
`health_check` to completion before issuing the next one, so the time at
which the aggregate call returns is the starting time plus the SUM of the
individual probe durations, not their maximum. -/
theorem healthCheckAll_latency_is_sum (r : Registry) (dur : String → Nat)
    (t : Nat) :
    healthCheckAllFinish r dur t = t + (r.map (fun e => dur e.1)).sum := by
  induction r generalizing t with
  | nil => simp [healthCheckAllFinish]
  | cons e rest ih =>
      simp only [healthCheckAllFinish, ih, List.map_cons, List.sum_cons]
      omega

/-- Counterexample for C4 as stated: with two adapters whose probes take 2
and 3 time units, the aggregate completes at time 5 (the sum), which differs
from 3 (the maximum of the individual durations). -/
theorem healthCheckAll_latency_counterexample :
    healthCheckAllFinish rPair durPair 0 = 5 ∧
    List.foldr max 0 (rPair.map (fun e => durPair e.1)) = 3 ∧
    (5 : Nat) ≠ 3 := by
  refine ⟨?_, ?_, by decide⟩ <;>
    simp [healthCheckAllFinish, rPair, durPair, adO]

/-! ### C6: rejection of unknown provider kinds -/

/-- Claim C6 (confirmed): `add_model` with a `provider` outside the closed
enumeration returns `False` without raising and leaves the registry exactly
as it was, so no entry is created under the config's name. -/
theorem addModel_unknown_kind_rejected (r : Registry) (cfg : ModelConfig)
    (h : cfg.provider ∉
      ["openai", "anthropic", "ollama", "llamacpp", "textgen",
        "huggingface"]) :
    addModel r cfg = (false, r) := by
  simp only [List.mem_cons, List.not_mem_nil, or_false, not_or] at h
  obtain ⟨h1, h2, h3, h4, h5, h6⟩ := h
  simp [addModel, providerClasses, h1, h2, h3, h4, h5, h6]

/-- Witness for C6: adding a config with kind tag `grok` to a two-entry
registry fails and changes nothing. -/
theorem addModel_unknown_kind_rejected_witness :
    cfgUnknown.provider ∉
      ["openai", "anthropic", "ollama", "llamacpp", "textgen",
        "huggingface"] ∧
    addModel rPair cfgUnknown = (false, rPair) :=
  ⟨by decide, addModel_unknown_kind_rejected rPair cfgUnknown (by decide)⟩

/-! ### C7: generate against an unregistered name -/

/-- Claim C7 (confirmed): for every model name absent from the registry and
every request, `ModelManager.generate` fails with the error message
`Model not found: <name>` (a `ValueError` carrying the requested name) and
the registry mapping is exactly the same after the call as before it. -/
theorem generate_notfound (r : Registry) (name : String)
    (req : GenerationRequest)
    (backend : Adapter → GenerationRequest → Except String GenerationResponse)
    (h : getModel r name = none) :
    managerGenerate r name req backend =
      (Except.error ("Model not found: " ++ name), r) := by
  simp [managerGenerate, h]

/-- Witness for C7: looking up `nonexistent` in a two-entry registry fails
with the expected message and returns the registry untouched. -/
theorem generate_notfound_witness :
    getModel rPair "nonexistent" = none ∧
    managerGenerate rPair "nonexistent" reqHello bkUnused =
      (Except.error "Model not found: nonexistent", rPair) := by
  have h := generate_notfound rPair "nonexistent" reqHello bkUnused (by decide)
  exact ⟨by decide, h⟩

/-! ### C1: custom_params versus the outgoing payload -/

/-- Counterexample for C1 as stated: the config `cfgSeed` carries the custom
pair `seed -> 42`, yet the payload `OllamaProvider.generate` sends to the
backend mentions no `seed` key anywhere (neither top-level nor in
`options`). -/
theorem custom_params_payload_counterexample :
    (("seed", PyVal.int 42) ∈ cfgSeed.custom_params) ∧
    ollamaPayloadMentions (ollamaPayload cfgSeed reqHello) "seed" = false := by
  constructor
  · simp [cfgSeed]
  · simp [ollamaPayloadMentions, ollamaPayload, cfgSeed, reqHello, pyTruthyList]

/-- Claim C1 (corrected): every key/value pair of the config's
`custom_params` is present in the MERGED parameter dictionary for every
request (never overridden by the request), but the payload sent to the
backend only carries the four standard sampling fields read from that
dictionary, so a custom key reaches the payload only when it is one of the
four standard names; the `options` dictionary of the Ollama payload never
holds any key outside `temperature`, `top_p`, `top_k`, `num_predict`,
`stop`. -/
theorem custom_params_reach_merge_not_payload :
    (∀ (cfg : ModelConfig) (req : GenerationRequest) (k : String) (v : PyVal),
      (cfg.custom_params.map Prod.fst).Nodup →
      (k, v) ∈ cfg.custom_params →
      dlookup (mergeConfig cfg req) k = some v) ∧
    (∀ (cfg : ModelConfig) (req : GenerationRequest) (k : String),
      (ollamaPayload cfg req).options.any (fun e => decide (e.1 = k)) = true →
      k ∈ ["temperature", "top_p", "top_k", "num_predict", "stop"]) := by
  constructor
  · intro cfg req k v hnd hm
    exact dlookup_foldl_dinsert_of_mem _ _ _ _ hnd hm
  · intro cfg req k h
    simp only [ollamaPayload, List.any_append, List.any_cons, List.any_nil,
      Bool.or_eq_true, decide_eq_true_eq] at h
    rcases h with (h | h | h | h | h) | h
    · subst h; simp
    · subst h; simp
    · subst h; simp
    · subst h; simp
    · exact absurd h (by simp)
    · by_cases hstop : pyTruthyList req.stop_sequences
      · rw [if_pos hstop] at h
        simp only [List.any_cons, List.any_nil, Bool.or_eq_true,
          decide_eq_true_eq] at h
        rcases h with h | h
        · subst h; simp
        · exact absurd h (by simp)
      · rw [if_neg hstop] at h
        simp at h

/-- Witness for C1 (amended): the custom pair `seed -> 42` is found in the
merged parameters, and `temperature` is one of the keys the payload may
mention. -/
theorem custom_params_reach_merge_not_payload_witness :
    dlookup (mergeConfig cfgSeed reqHello) "seed" = some (PyVal.int 42) ∧
    ("temperature" : String) ∈
      ["temperature", "top_p", "top_k", "num_predict", "stop"] := by
  have h := custom_params_reach_merge_not_payload
  refine ⟨h.1 cfgSeed reqHello "seed" (PyVal.int 42) (by decide) (by decide), ?_⟩
  exact h.2 cfgSeed reqHello "temperature" (by
    simp [ollamaPayload, pyTruthyList, reqHello])

/-! ### C2: merge precedence -/

/-- Counterexample for C2 as stated: a request that supplies `temperature
0.0` does NOT win over the config default (Python `or` treats `0.0` as
absent), and a `custom_params` binding of `max_tokens` overrides the
request's supplied value. -/
theorem merge_precedence_counterexample :
    reqZeroTemp.temperature = some 0 ∧
    cfgOllama.temperature = 9/10 ∧
    dlookup (mergeConfig cfgOllama reqZeroTemp) "temperature" =
      some (PyVal.float (9/10)) ∧
    (9 / 10 : Rat) ≠ 0 ∧
    reqMax5.max_tokens = some 5 ∧
    cfgCustomMax.custom_params = [("max_tokens", PyVal.int 99)] ∧
    dlookup (mergeConfig cfgCustomMax reqMax5) "max_tokens" =
      some (PyVal.int 99) ∧
    PyVal.int 99 ≠ PyVal.int 5 := by
  refine ⟨rfl, rfl, ?_, by norm_num, rfl, rfl, ?_, by decide⟩
  · simp [mergeConfig, cfgOllama, reqZeroTemp, dlookup, dinsert, pyOrRat]
  · simp [mergeConfig, cfgCustomMax, reqMax5, dlookup, dinsert, pyOrInt]

/-- Claim C2 (corrected): for each of the four standard fields, provided the
config's `custom_params` does not bind that field's key: if the request
supplies a NON-ZERO value, the merged parameters carry the request's value;
if the request leaves the field absent (`None`) or supplies the falsy value
zero, they carry the config's default. -/
theorem merge_precedence_amended (cfg : ModelConfig) (req : GenerationRequest)
    (hc : ∀ p ∈ cfg.custom_params,
      p.1 ∉ (["max_tokens", "temperature", "top_p", "top_k"] : List String)) :
    ((∀ v, req.max_tokens = some v → v ≠ 0 →
        dlookup (mergeConfig cfg req) "max_tokens" = some (.int v)) ∧
      (req.max_tokens = none ∨ req.max_tokens = some 0 →
        dlookup (mergeConfig cfg req) "max_tokens" =
          some (.int cfg.max_tokens))) ∧
    ((∀ v, req.temperature = some v → v ≠ 0 →
        dlookup (mergeConfig cfg req) "temperature" = some (.float v)) ∧
      (req.temperature = none ∨ req.temperature = some 0 →
        dlookup (mergeConfig cfg req) "temperature" =
          some (.float cfg.temperature))) ∧
    ((∀ v, req.top_p = some v → v ≠ 0 →
        dlookup (mergeConfig cfg req) "top_p" = some (.float v)) ∧
      (req.top_p = none ∨ req.top_p = some 0 →
        dlookup (mergeConfig cfg req) "top_p" = some (.float cfg.top_p))) ∧
    ((∀ v, req.top_k = some v → v ≠ 0 →
        dlookup (mergeConfig cfg req) "top_k" = some (.int v)) ∧
      (req.top_k = none ∨ req.top_k = some 0 →
        dlookup (mergeConfig cfg req) "top_k" = some (.int cfg.top_k))) := by
  have hbase : ∀ k ∈ (["max_tokens", "temperature", "top_p", "top_k"] :
      List String), dlookup (mergeConfig cfg req) k =
      dlookup [("max_tokens", PyVal.int (pyOrInt req.max_tokens cfg.max_tokens)),
        ("temperature", PyVal.float (pyOrRat req.temperature cfg.temperature)),
        ("top_p", PyVal.float (pyOrRat req.top_p cfg.top_p)),
        ("top_k", PyVal.int (pyOrInt req.top_k cfg.top_k))] k := by
    intro k hk
    exact dlookup_foldl_dinsert_of_not_mem _ _ _
      (fun p hp hpk => hc p hp (hpk ▸ hk))
  have hmt := hbase "max_tokens" (by simp)
  have htm := hbase "temperature" (by simp)
  have htp := hbase "top_p" (by simp)
  have htk := hbase "top_k" (by simp)
  simp only [dlookup] at hmt htm htp htk
  norm_num at hmt htm htp htk
  refine ⟨⟨?_, ?_⟩, ⟨?_, ?_⟩, ⟨?_, ?_⟩, ⟨?_, ?_⟩⟩
  · intro v hv hv0; rw [hmt, hv]; simp [pyOrInt, hv0]
  · rintro (h0 | h0) <;> rw [hmt, h0] <;> simp [pyOrInt]
  · intro v hv hv0; rw [htm, hv]; simp [pyOrRat, hv0]
  · rintro (h0 | h0) <;> rw [htm, h0] <;> simp [pyOrRat]
  · intro v hv hv0; rw [htp, hv]; simp [pyOrRat, hv0]
  · rintro (h0 | h0) <;> rw [htp, h0] <;> simp [pyOrRat]
  · intro v hv hv0; rw [htk, hv]; simp [pyOrInt, hv0]
  · rintro (h0 | h0) <;> rw [htk, h0] <;> simp [pyOrInt]

/-- Witness for C2 (amended): a supplied non-zero temperature `0.5` wins;
the supplied falsy temperature `0.0` falls back to the config default. -/
theorem merge_precedence_amended_witness :
    dlookup (mergeConfig cfgOllama reqHalfTemp) "temperature" =
      some (PyVal.float (1/2)) ∧
    dlookup (mergeConfig cfgOllama reqZeroTemp) "temperature" =
      some (PyVal.float cfgOllama.temperature) := by
  have h1 := merge_precedence_amended cfgOllama reqHalfTemp (by simp [cfgOllama])
  have h2 := merge_precedence_amended cfgOllama reqZeroTemp (by simp [cfgOllama])
  exact ⟨h1.2.1.1 (1/2) rfl (by norm_num), h2.2.1.2 (Or.inr rfl)⟩

/-! ### C5: streaming capability flag -/

/-- Counterexample for C5 as stated: a registered Ollama adapter's
`get_model_info` reports `supports_streaming: True`, not `False`. -/
theorem supports_streaming_counterexample :
    (getModelInfo adO).supports_streaming = true ∧
    adO.kind = ProviderKind.ollama := by decide

/-- Claim C5 (corrected): every adapter's `get_model_info` reports
`supports_streaming: True` EXCEPT the HuggingFace adapter, which reports
`False`; and every entry of `list_models` is the `get_model_info` dictionary
of a registered adapter tagged with its name, so the registry listing shows
the same flags. -/
theorem supports_streaming_amended :
    (∀ a : Adapter, (getModelInfo a).supports_streaming =
      decide (a.kind ≠ ProviderKind.huggingface)) ∧
    (∀ (r : Registry) (p : String × ModelInfo), p ∈ listModels r →
      ∃ a : Adapter, (p.1, a) ∈ r ∧ p.2 = getModelInfo a) := by
  constructor
  · intro a
    obtain ⟨k, cfg⟩ := a
    cases k <;> rfl
  · intro r p hp
    simp only [listModels, List.mem_map] at hp
    obtain ⟨e, he, hpe⟩ := hp
    subst hpe
    exact ⟨e.2, he, rfl⟩

/-- Witness for C5 (amended): the HuggingFace adapter reports no streaming,
the Ollama adapter reports streaming, and the listing entry of a registered
adapter is its `get_model_info`. -/
theorem supports_streaming_amended_witness :
    (getModelInfo adHF).supports_streaming =
      decide (adHF.kind ≠ ProviderKind.huggingface) ∧
    (getModelInfo adO).supports_streaming =
      decide (adO.kind ≠ ProviderKind.huggingface) ∧
    ∃ a : Adapter, (("a", a) ∈ rPair) ∧
      ("a", getModelInfo adO).2 = getModelInfo a := by
  have h := supports_streaming_amended
  exact ⟨h.1 adHF, h.1 adO,
    h.2 rPair ("a", getModelInfo adO) (by simp [listModels, rPair])⟩

/-! ### C8: health checks absorb failures -/

/-- Counterexample for C8 as stated: HTTP status 503 is a non-success
status, yet the HuggingFace health check returns `true` on it. -/
theorem hf_healthy_on_503_counterexample :
    hfHealthCheck (some 503) = true ∧ (503 : Nat) ≠ 200 := by decide

/-- Claim C8 (corrected): no provider's `health_check` propagates an
exception — each is a total Boolean function of the probe outcome; a raised
transport error or timeout yields `false` for all six providers, and a
non-200 status yields `false` for the HTTP-probed providers, EXCEPT that the
HuggingFace adapter treats status 503 (model loading) as healthy. -/
theorem health_check_absorbs_failures :
    (ollamaHealthCheck none = false ∧ llamacppHealthCheck none = false ∧
      textgenHealthCheck none = false ∧ hfHealthCheck none = false ∧
      openaiHealthCheck none = false ∧ anthropicHealthCheck none = false) ∧
    (∀ s : Nat, s ≠ 200 →
      ollamaHealthCheck (some s) = false ∧
      llamacppHealthCheck (some s) = false ∧
      textgenHealthCheck (some s) = false) ∧
    (∀ s : Nat, s ≠ 200 → s ≠ 503 → hfHealthCheck (some s) = false) ∧
    hfHealthCheck (some 503) = true := by
  refine ⟨by decide, ?_, ?_, by decide⟩
  · intro s hs
    simp [ollamaHealthCheck, llamacppHealthCheck, textgenHealthCheck, hs]
  · intro s hs1 hs2
    simp [hfHealthCheck, hs1, hs2]

/-- Witness for C8 (amended): status 404 yields `false` for both the Ollama
and the HuggingFace probe. -/
theorem health_check_absorbs_failures_witness :
    ollamaHealthCheck (some 404) = false ∧
    hfHealthCheck (some 404) = false := by
  obtain ⟨hnone, hstat, hhf, h503⟩ := health_check_absorbs_failures
  exact ⟨(hstat 404 (by decide)).1, hhf 404 (by decide) (by decide)⟩

/-! ### C9: registry round trip -/

/-- Claim C9 (confirmed): after a successful `add_model(config)`,
`get_model(config.name)` returns an adapter whose `get_model_info` reports
the config's provider kind; and after `remove_model(name)` on a registry
with distinct names (the dict invariant), `get_model(name)` returns
absent. -/
theorem registry_round_trip :
    (∀ (r : Registry) (cfg : ModelConfig), (addModel r cfg).1 = true →
      ∃ a : Adapter, getModel (addModel r cfg).2 cfg.name = some a ∧
        (getModelInfo a).provider = cfg.provider) ∧
    (∀ (r : Registry) (name : String), (r.map Prod.fst).Nodup →
      getModel (removeModel r name).2 name = none) := by
  constructor
  · intro r cfg hadd
    rcases hpc : providerClasses cfg.provider with _ | k
    · simp [addModel, hpc] at hadd
    · refine ⟨⟨k, cfg⟩, ?_, ?_⟩
      · simp [addModel, hpc, getModel, dlookup_dinsert_self]
      · cases k <;> rfl
  · intro r name hnd
    by_cases h : (dlookup r name).isSome
    · simp only [removeModel, h, if_true, getModel]
      exact dlookup_derase_self r name hnd
    · simp only [removeModel, h, if_false, getModel]
      exact Option.not_isSome_iff_eq_none.mp h

/-- Witness for C9: adding the Ollama config to the empty registry succeeds
and round-trips; removing `a` from a two-entry registry makes it absent. -/
theorem registry_round_trip_witness :
    (addModel ([] : Registry) cfgOllama).1 = true ∧
    (∃ a : Adapter,
      getModel (addModel ([] : Registry) cfgOllama).2 cfgOllama.name =
        some a ∧ (getModelInfo a).provider = cfgOllama.provider) ∧
    getModel (removeModel rPair "a").2 "a" = none := by
  have h := registry_round_trip
  exact ⟨by decide, h.1 [] cfgOllama (by decide), h.2 rPair "a" (by decide)⟩

/-! ### C10: custom_params shadow the standard fields -/

/-- Claim C10 (confirmed): if the config's `custom_params` binds a key that
is exactly one of `max_tokens`, `temperature`, `top_p`, `top_k`, then for
every request the merged parameters carry the `custom_params` value at that
key, overriding both the request's value and the config's own default. -/
theorem custom_params_shadow_standard_fields (cfg : ModelConfig)
    (req : GenerationRequest) (k : String) (v : PyVal)
    (hnd : (cfg.custom_params.map Prod.fst).Nodup)
    (_hk : k ∈ (["max_tokens", "temperature", "top_p", "top_k"] : List String))
    (hm : (k, v) ∈ cfg.custom_params) :
    dlookup (mergeConfig cfg req) k = some v :=
  dlookup_foldl_dinsert_of_mem _ _ _ _ hnd hm

/-- Witness for C10: `custom_params` binding `max_tokens -> 99` beats the
request's `max_tokens = 5` (and the config default 4096). -/
theorem custom_params_shadow_standard_fields_witness :
    dlookup (mergeConfig cfgCustomMax reqMax5) "max_tokens" =
      some (PyVal.int 99) :=
  custom_params_shadow_standard_fields cfgCustomMax reqMax5 "max_tokens"
    (PyVal.int 99) (by decide) (by decide) (by decide)
